import Mathlib

/-!
Shallow embedding of the chat screen of the messaging client
(`src/ChatScreen.js`): the conversation-feed subscriber (the `onSnapshot`
callback: timestamp normalization, client-side pair filtering, descending
re-sort), the message submission path (`onSend` and the custom send button
in `renderSend`), and the subscription lifecycle of the message-listener
effect (cleanup on dependency change or unmount).

Conventions of the embedding:
* Instants are integers (`Int`), standing for millisecond epoch values of
  JavaScript `Date`s.  `new Date()` at a run is an explicit `now : Int`
  parameter.
* A Firestore document's `createdAt` is `Option Int`: `some t` models a
  value with a `toDate` conversion yielding instant `t`; `none` models a
  value with no convertible timestamp (missing field, null, or a pending
  server timestamp), for which the source falls back to `new Date()`.
* JavaScript truthiness of the optional identity strings held in React
  state (`receiver`, `user`) is `truthyStr`: absent (`null`) and the empty
  string are falsy, every other string is truthy.
* `Array.prototype.sort` with the comparator
  `(a, b) => b.createdAt - a.createdAt` (a consistent total preorder) is
  modelled by `List.insertionSort` over the relation `newestFirst`; both
  are stable and produce a sequence sorted by that comparator.
-/

namespace ChatApp

/-- Value stored in a chat record's `user` field.  In the source this field
is either absent (`undefined`), a plain identity string, or an object
carrying an optional `_id` property (the shape GiftedChat produces for the
authoring user). -/
inductive UserField where
  | undef : UserField
  | str : String → UserField
  | obj : Option String → UserField
deriving DecidableEq

/-- Evaluation of the expression `msg.user?._id || msg.user`
(ChatScreen.js line 119).  An absent `user` yields `undefined`; a string
has no `_id`, so the `||` falls back to the string itself; an object with
a truthy `_id` yields that string, otherwise the `||` falls back to the
object. -/
def extractMsgUser : UserField → UserField
  | UserField.undef => UserField.undef
  | UserField.str s => UserField.str s
  | UserField.obj i =>
    match i with
    | some t => if t = "" then UserField.obj (some t) else UserField.str t
    | none => UserField.obj none

/-- JavaScript strict equality `v === s` between the extracted `user`
value and an identity string: true exactly when `v` is that string
(objects and `undefined` are never `===` a string). -/
def jsEqStr : UserField → String → Bool
  | UserField.str s, t => s == t
  | _, _ => false

/-- JavaScript strict equality `msg.receiver === s` where the `receiver`
field may be absent (`undefined`). -/
def optEqStr : Option String → String → Bool
  | some s, t => s == t
  | none, _ => false

/-- Data of one document of the `chats` collection as delivered in a
snapshot.  `id` is the document identifier; `user`, `receiver`, `text`
and `createdAt` are the data fields consulted or carried by the chat
screen (`receiver` and `createdAt` may be absent or unconvertible in
arbitrary record shapes). -/
structure ChatDoc where
  id : String
  user : UserField
  receiver : Option String
  text : String
  createdAt : Option Int
deriving DecidableEq

/-- A message object produced by the snapshot mapping: the document data
with `createdAt` normalized to a definite instant
(ChatScreen.js lines 109-114). -/
structure ChatMsg where
  id : String
  user : UserField
  receiver : Option String
  text : String
  createdAt : Int
deriving DecidableEq

/-- The body of `snapshot.docs.map` (ChatScreen.js lines 109-114):
`createdAt: doc.data().createdAt?.toDate ? doc.data().createdAt.toDate() : new Date()`.
A record lacking a convertible timestamp is stamped with the current
instant `now` instead of being dropped. -/
def toMessage (now : Int) (d : ChatDoc) : ChatMsg :=
  { id := d.id
    user := d.user
    receiver := d.receiver
    text := d.text
    createdAt :=
      match d.createdAt with
      | some t => t
      | none => now }

/-- The predicate of `allMessages.filter` (ChatScreen.js lines 118-126):
`(msgUser === user && msgReceiver === receiver) || (msgUser === receiver && msgReceiver === user)`. -/
def keepsMessage (user receiver : String) (m : ChatMsg) : Bool :=
  (jsEqStr (extractMsgUser m.user) user && optEqStr m.receiver receiver) ||
  (jsEqStr (extractMsgUser m.user) receiver && optEqStr m.receiver user)

/-- Order imposed by the comparator `(a, b) => b.createdAt - a.createdAt`
(ChatScreen.js line 129): `a` may precede `b` exactly when
`b.createdAt ≤ a.createdAt`, i.e. newest first. -/
def newestFirst (a b : ChatMsg) : Prop :=
  b.createdAt ≤ a.createdAt

instance : DecidableRel newestFirst := fun a b =>
  inferInstanceAs (Decidable (b.createdAt ≤ a.createdAt))

instance : IsTotal ChatMsg newestFirst :=
  ⟨fun a b => le_total b.createdAt a.createdAt⟩

instance : IsTrans ChatMsg newestFirst :=
  ⟨fun _ _ _ hab hbc => le_trans hbc hab⟩

/-- The success branch of the `onSnapshot` callback
(ChatScreen.js lines 107-132): map the snapshot's documents to message
objects (normalizing timestamps at instant `now`), retain the active
conversation, and re-sort newest first.  The result is the value passed
to `setMessages`. -/
def processSnapshot (now : Int) (user receiver : String) (docs : List ChatDoc) : List ChatMsg :=
  let allMessages := docs.map (toMessage now)
  let filteredMessages := allMessages.filter (keepsMessage user receiver)
  List.insertionSort newestFirst filteredMessages

/-- One delivery on the subscription: either a snapshot of the feed or a
notification-delivery error (the second argument of `onSnapshot`). -/
inductive SnapshotEvent where
  | snap : List ChatDoc → SnapshotEvent
  | err : String → SnapshotEvent

/-- Effect of one subscription delivery on the rendered view
(ChatScreen.js lines 107-136): a snapshot replaces the view with the
freshly filtered and sorted sequence; an error is only logged
(`console.error`) and the previously computed view is left in place. -/
def handleSnapshotEvent (now : Int) (user receiver : String) (view : List ChatMsg) :
    SnapshotEvent → List ChatMsg
  | SnapshotEvent.snap docs => processSnapshot now user receiver docs
  | SnapshotEvent.err _ => view

/-- JavaScript truthiness of the optional identity strings held in state:
`null`/absent and `""` are falsy. -/
def truthyStr : Option String → Bool
  | none => false
  | some s => s != ""

/-- The message object destructured from `messages[0]` in `onSend`
(ChatScreen.js line 156): `const { _id, createdAt, text, user: messageUser }`.
`createdAt` may be absent, in which case the write defaults it to
`new Date()`. -/
structure OutgoingMsg where
  _id : String
  createdAt : Option Int
  text : String
  user : UserField
deriving DecidableEq

/-- The record handed to `addDoc` (ChatScreen.js lines 160-166): the
destructured fields plus `receiver` from state, with
`createdAt: createdAt || new Date()`. -/
def sentDoc (receiver : String) (now : Int) (m : OutgoingMsg) : ChatDoc :=
  { id := m._id
    user := m.user
    receiver := some receiver
    text := m.text
    createdAt :=
      some
        (match m.createdAt with
        | some t => t
        | none => now) }

/-- Observable outcome of one `onSend` invocation: the store contents
afterwards, the rendered view afterwards (never touched by `onSend`),
whether an error was logged, and how many write attempts were issued. -/
structure SendOutcome where
  store : List ChatDoc
  view : List ChatMsg
  errorLogged : Bool
  writeAttempts : Nat
deriving DecidableEq

/-- The `onSend` callback (ChatScreen.js lines 147-173).  If `receiver`
or `user` is falsy it logs and returns without contacting the store.
Otherwise it destructures `messages[0]` (an empty array makes the
destructuring throw, which the `try/catch` turns into a logged error with
no write recorded) and issues exactly one `addDoc`; `writeOk` says
whether that store-level write succeeds, and on failure the `catch`
merely logs.  In every branch the local view is left untouched. -/
def onSend (receiver user : Option String) (writeOk : Bool) (now : Int)
    (messages : List OutgoingMsg) (store : List ChatDoc) (view : List ChatMsg) : SendOutcome :=
  if !(truthyStr receiver) || !(truthyStr user) then
    { store := store, view := view, errorLogged := true, writeAttempts := 0 }
  else
    match messages with
    | [] => { store := store, view := view, errorLogged := true, writeAttempts := 0 }
    | m :: _ =>
      if writeOk then
        { store := store ++ [sentDoc (receiver.getD "") now m], view := view
          errorLogged := false, writeAttempts := 1 }
      else
        { store := store, view := view, errorLogged := true, writeAttempts := 1 }

/-- JavaScript `String.prototype.trim`: remove leading and trailing
whitespace characters. -/
def jsTrim (s : String) : String :=
  String.mk (((s.data.dropWhile Char.isWhitespace).reverse.dropWhile Char.isWhitespace).reverse)

/-- The press handler of the custom send button
(ChatScreen.js lines 485-491): `if (props.text && props.onSend) { props.onSend({ text: props.text.trim() }, true) }`.
The result is the text submitted onwards, or `none` when the guard
rejects the press (the composer text is absent or the empty string — the
only falsy strings). -/
def sendPress (text : Option String) : Option String :=
  match text with
  | none => none
  | some t => if t = "" then none else some (jsTrim t)

/-- The sender of a mapped message as the subscriber interprets it: the
value of `msg.user?._id || msg.user`. -/
def senderOf (m : ChatMsg) : UserField :=
  extractMsgUser m.user

/-- The receiver of a mapped message as a JavaScript value: the string,
or `undefined` when the field is absent. -/
def receiverVal (m : ChatMsg) : UserField :=
  match m.receiver with
  | some s => UserField.str s
  | none => UserField.undef

/-- Modelled from the spec (for the refinement claim about the filter):
the record's (sender, receiver) pair, taken as an unordered pair, equals
the unordered pair of the two viewed principals. -/
def specUnorderedPairMatches (user receiver : String) (m : ChatMsg) : Prop :=
  ({senderOf m, receiverVal m} : Set UserField) =
    {UserField.str user, UserField.str receiver}

/-- A conversation pair as captured by one run of the subscription
effect: the current principal and the selected counterpart. -/
structure Pair where
  user : String
  receiver : String
deriving DecidableEq

/-- Lifecycle state of one chat screen instance: the subscriptions
currently open against the store, and the cleanup handle (the
`unsubscribe` closure) returned by the last effect run, if that run
subscribed. -/
structure ScreenState where
  live : List Pair
  cleanup : Option Pair
deriving DecidableEq

/-- State of a freshly mounted screen: nothing subscribed, no cleanup
registered. -/
def initialScreen : ScreenState :=
  { live := [], cleanup := none }

/-- Running the cleanup of the previous effect run
(ChatScreen.js lines 140-142): if that run returned an `unsubscribe`
handle, invoking it closes exactly that subscription; afterwards no
cleanup is pending. -/
def runCleanup (s : ScreenState) : ScreenState :=
  match s.cleanup with
  | some p => { live := s.live.erase p, cleanup := none }
  | none => { live := s.live, cleanup := none }

/-- The body of the subscription effect (ChatScreen.js lines 94-143):
`if (!receiver || !user) return;` — otherwise open one `onSnapshot`
subscription for the pair and register its `unsubscribe` as the cleanup. -/
def runEffect (receiver user : Option String) (s : ScreenState) : ScreenState :=
  if !(truthyStr receiver) || !(truthyStr user) then s
  else
    let p : Pair := { user := user.getD "", receiver := receiver.getD "" }
    { live := s.live ++ [p], cleanup := some p }

/-- Lifecycle events of the screen: the effect's dependencies
`[receiver, user]` changed (React re-runs the effect), or the screen is
torn down. -/
inductive ScreenEvent where
  | deps : Option String → Option String → ScreenEvent
  | unmount : ScreenEvent

/-- One lifecycle step.  Per React's effect semantics, a dependency
change first invokes the previous run's cleanup and only then runs the
effect body; unmount invokes the cleanup alone. -/
def stepScreen (s : ScreenState) : ScreenEvent → ScreenState
  | ScreenEvent.deps receiver user => runEffect receiver user (runCleanup s)
  | ScreenEvent.unmount => runCleanup s

/-- The lifecycle state reached from a fresh mount by a sequence of
events. -/
def runScreen (evs : List ScreenEvent) : ScreenState :=
  evs.foldl stepScreen initialScreen

/-- Delivery of a snapshot for pair `p`: it reaches the view only while
the subscription for `p` is open; after `unsubscribe` the store client
invokes the callback no further, so the view is unchanged. -/
def deliverSnapshot (now : Int) (s : ScreenState) (p : Pair) (docs : List ChatDoc)
    (view : List ChatMsg) : List ChatMsg :=
  if p ∈ s.live then processSnapshot now p.user p.receiver docs else view

/-- Well-formedness of a lifecycle state: the open subscriptions are
exactly the one the pending cleanup would close, or none. -/
def wellFormed (s : ScreenState) : Prop :=
  match s.cleanup with
  | some p => s.live = [p]
  | none => s.live = []

lemma wellFormed_initial : wellFormed initialScreen := rfl

lemma wellFormed_runCleanup {s : ScreenState} (h : wellFormed s) :
    (runCleanup s).live = [] ∧ wellFormed (runCleanup s) := by
  unfold wellFormed at h
  cases hc : s.cleanup with
  | none =>
    rw [hc] at h
    simp [runCleanup, hc, h, wellFormed]
  | some p =>
    rw [hc] at h
    simp [runCleanup, hc, h, wellFormed, List.erase_cons_head]

lemma wellFormed_stepScreen {s : ScreenState} (h : wellFormed s) (ev : ScreenEvent) :
    wellFormed (stepScreen s ev) := by
  cases ev with
  | unmount => exact (wellFormed_runCleanup h).2
  | deps receiver user =>
    obtain ⟨hl, hw⟩ := wellFormed_runCleanup h
    show wellFormed (runEffect receiver user (runCleanup s))
    unfold runEffect
    by_cases hg : (!(truthyStr receiver) || !(truthyStr user)) = true
    · simpa [hg] using hw
    · simp only [hg, if_false, Bool.not_eq_true] at *
      simp [wellFormed, hl, hg]

lemma wellFormed_runScreen (evs : List ScreenEvent) : wellFormed (runScreen evs) := by
  have main : ∀ (l : List ScreenEvent) (s : ScreenState), wellFormed s →
      wellFormed (l.foldl stepScreen s) := by
    intro l
    induction l with
    | nil => intro s hs; exact hs
    | cons e t ih => intro s hs; exact ih _ (wellFormed_stepScreen hs e)
  exact main evs initialScreen wellFormed_initial

lemma jsEqStr_eq_true_iff (v : UserField) (t : String) :
    jsEqStr v t = true ↔ v = UserField.str t := by
  cases v with
  | undef => simp [jsEqStr]
  | str s => simp [jsEqStr]
  | obj i => simp [jsEqStr]

lemma optEqStr_eq_true_iff (o : Option String) (t : String) :
    optEqStr o t = true ↔ o = some t := by
  cases o with
  | none => simp [optEqStr]
  | some s => simp [optEqStr]

lemma receiverVal_eq_str_iff (m : ChatMsg) (t : String) :
    receiverVal m = UserField.str t ↔ m.receiver = some t := by
  cases h : m.receiver with
  | none => simp [receiverVal, h]
  | some s => simp [receiverVal, h]

lemma keepsMessage_iff (user receiver : String) (m : ChatMsg) :
    keepsMessage user receiver m = true ↔
      (senderOf m = UserField.str user ∧ receiverVal m = UserField.str receiver) ∨
      (senderOf m = UserField.str receiver ∧ receiverVal m = UserField.str user) := by
  unfold keepsMessage senderOf
  rw [Bool.or_eq_true, Bool.and_eq_true, Bool.and_eq_true]
  rw [jsEqStr_eq_true_iff, jsEqStr_eq_true_iff, optEqStr_eq_true_iff, optEqStr_eq_true_iff]
  rw [receiverVal_eq_str_iff, receiverVal_eq_str_iff]

lemma specUnorderedPairMatches_iff (user receiver : String) (m : ChatMsg) :
    specUnorderedPairMatches user receiver m ↔
      (senderOf m = UserField.str user ∧ receiverVal m = UserField.str receiver) ∨
      (senderOf m = UserField.str receiver ∧ receiverVal m = UserField.str user) := by
  unfold specUnorderedPairMatches
  exact Set.pair_eq_pair_iff

/-- C1: for every snapshot and every pair of non-empty principals, the
filter retains a mapped record exactly when its (sender, receiver) pair,
taken as an unordered pair, equals the viewed pair; in the self-chat case
only records with sender = receiver = the principal pass, and a record
the principal sent to any third party is excluded. -/
theorem filter_retains_exactly_unordered_pair (user receiver : String)
    (hu : user ≠ "") (hr : receiver ≠ "") (m : ChatMsg) :
    (∀ (now : Int) (docs : List ChatDoc),
        m ∈ (docs.map (toMessage now)).filter (keepsMessage user receiver) ↔
          m ∈ docs.map (toMessage now) ∧ specUnorderedPairMatches user receiver m) ∧
    (keepsMessage user user m = true ↔
        senderOf m = UserField.str user ∧ receiverVal m = UserField.str user) ∧
    (∀ c : String, c ≠ user → senderOf m = UserField.str user →
        receiverVal m = UserField.str c → keepsMessage user user m = false) := by
  refine ⟨?_, ?_, ?_⟩
  · intro now docs
    rw [List.mem_filter, keepsMessage_iff, specUnorderedPairMatches_iff]
  · rw [keepsMessage_iff]
    exact or_self_iff
  · intro c hc hs hrv
    cases hk : keepsMessage user user m with
    | false => rfl
    | true =>
      exfalso
      have h2 := (keepsMessage_iff user user m).mp hk
      have : receiverVal m = UserField.str user := by
        rcases h2 with ⟨_, h⟩ | ⟨_, h⟩ <;> exact h
      rw [hrv] at this
      exact hc (by injection this)

/-- Witness for C1 at a concrete input: with principal `a` in self-chat,
a record `a` sent to the third party `b` is excluded. -/
theorem filter_retains_exactly_unordered_pair_witness :
    ("a" : String) ≠ "" ∧
    keepsMessage "a" "a" (ChatMsg.mk "m1" (UserField.str "a") (some "b") "hi" 5) = false :=
  ⟨by decide,
    (filter_retains_exactly_unordered_pair "a" "a" (by decide) (by decide)
        (ChatMsg.mk "m1" (UserField.str "a") (some "b") "hi" 5)).2.2 "b"
      (by decide) rfl rfl⟩

/-- C2: a record built by the submission path with sender `A` (taken from
the message's `user` field) and receiver `B` is appended to the store,
is retained by the filter for the pair `(A, B)`, and is excluded by the
filter for every pair `(A, C)` with `C ≠ B`. -/
theorem sent_record_filtered_correctly (A B C : String) (hA : A ≠ "") (hB : B ≠ "")
    (hC : C ≠ B) (now later : Int) (m : OutgoingMsg)
    (husr : extractMsgUser m.user = UserField.str A)
    (store : List ChatDoc) (view : List ChatMsg) :
    (onSend (some B) (some A) true now [m] store view).store = store ++ [sentDoc B now m] ∧
    keepsMessage A B (toMessage later (sentDoc B now m)) = true ∧
    keepsMessage A C (toMessage later (sentDoc B now m)) = false := by
  have hA2 : (A != "") = true := bne_iff_ne.mpr hA
  have hB2 : (B != "") = true := bne_iff_ne.mpr hB
  refine ⟨?_, ?_, ?_⟩
  · simp [onSend, truthyStr, hA2, hB2]
  · simp [keepsMessage, toMessage, sentDoc, husr, jsEqStr, optEqStr]
  · simp only [keepsMessage, toMessage, sentDoc, husr, jsEqStr, optEqStr]
    have h1 : (B == C) = false := by
      simp only [beq_eq_false_iff_ne]
      exact fun e => hC e.symm
    rcases eq_or_ne B A with h2 | h2
    · have h3 : (A == C) = false := by
        simp only [beq_eq_false_iff_ne]
        intro e
        exact hC (h2.trans e).symm
      simp [h1, h3]
    · have h4 : (B == A) = false := beq_eq_false_iff_ne.mpr h2
      simp [h1, h4]

/-- Witness for C2 at a concrete input: `alice` sends to `bob`; the
record lands in the store, appears for the pair (alice, bob) and not for
(alice, carol). -/
theorem sent_record_filtered_correctly_witness :
    (onSend (some "bob") (some "alice") true 0
        [OutgoingMsg.mk "m1" none "hi" (UserField.obj (some "alice"))] [] []).store =
      [sentDoc "bob" 0 (OutgoingMsg.mk "m1" none "hi" (UserField.obj (some "alice")))] ∧
    keepsMessage "alice" "bob"
      (toMessage 1 (sentDoc "bob" 0 (OutgoingMsg.mk "m1" none "hi" (UserField.obj (some "alice"))))) = true ∧
    keepsMessage "alice" "carol"
      (toMessage 1 (sentDoc "bob" 0 (OutgoingMsg.mk "m1" none "hi" (UserField.obj (some "alice"))))) = false := by
  have h := sent_record_filtered_correctly "alice" "bob" "carol" (by decide) (by decide)
    (by decide) 0 1 (OutgoingMsg.mk "m1" none "hi" (UserField.obj (some "alice")))
    (by decide) [] []
  simpa using h

/-- C6: when either identity of the active pair is unset (absent or the
empty string), `onSend` fails fast: the error is logged, no write is
attempted, the store is unchanged and the rendered view is unchanged. -/
theorem send_missing_precondition_noop (receiver user : Option String) (writeOk : Bool)
    (now : Int) (messages : List OutgoingMsg) (store : List ChatDoc) (view : List ChatMsg)
    (h : truthyStr receiver = false ∨ truthyStr user = false) :
    onSend receiver user writeOk now messages store view =
      { store := store, view := view, errorLogged := true, writeAttempts := 0 } := by
  rcases h with h | h <;> simp [onSend, h]

/-- Witness for C6 at a concrete input: sending with no counterpart
selected leaves the store and the view untouched. -/
theorem send_missing_precondition_noop_witness :
    truthyStr none = false ∧
    onSend none (some "alice") true 0 [OutgoingMsg.mk "m1" none "hi" (UserField.str "alice")]
        [] [] =
      { store := [], view := [], errorLogged := true, writeAttempts := 0 } :=
  ⟨rfl,
    send_missing_precondition_noop none (some "alice") true 0
      [OutgoingMsg.mk "m1" none "hi" (UserField.str "alice")] [] [] (Or.inl rfl)⟩

/-- C7: a notification-delivery error on the subscription is logged and
leaves the last computed view displayed, and a store-level write failure
in `onSend` is caught and logged, mutates neither the store nor the view,
and issues exactly one write attempt (no automatic retry or re-queue). -/
theorem failures_logged_nonfatal (now : Int) (user receiver e : String) (view : List ChatMsg)
    (recv usr : Option String) (m : OutgoingMsg) (ms : List OutgoingMsg)
    (store : List ChatDoc) (view2 : List ChatMsg)
    (hrecv : truthyStr recv = true) (husr : truthyStr usr = true) :
    handleSnapshotEvent now user receiver view (SnapshotEvent.err e) = view ∧
    onSend recv usr false now (m :: ms) store view2 =
      { store := store, view := view2, errorLogged := true, writeAttempts := 1 } := by
  constructor
  · rfl
  · simp [onSend, hrecv, husr]

/-- Witness for C7 at a concrete input: an errored delivery keeps the
one-element view, and a failed write leaves the empty store and view
unchanged after a single attempt. -/
theorem failures_logged_nonfatal_witness :
    handleSnapshotEvent 0 "alice" "bob" [ChatMsg.mk "m1" (UserField.str "alice") (some "bob") "hi" 5]
        (SnapshotEvent.err "transport") =
      [ChatMsg.mk "m1" (UserField.str "alice") (some "bob") "hi" 5] ∧
    onSend (some "bob") (some "alice") false 0
        [OutgoingMsg.mk "m2" none "yo" (UserField.str "alice")] [] [] =
      { store := [], view := [], errorLogged := true, writeAttempts := 1 } :=
  failures_logged_nonfatal 0 "alice" "bob" "transport"
    [ChatMsg.mk "m1" (UserField.str "alice") (some "bob") "hi" 5]
    (some "bob") (some "alice") (OutgoingMsg.mk "m2" none "yo" (UserField.str "alice")) [] [] []
    (by decide) (by decide)

/-- C8: a record whose `createdAt` lacks a convertible timestamp is
normalized to the current instant and kept by the snapshot mapping: it is
present in the mapped feed, whose length equals the snapshot's. -/
theorem missing_timestamp_normalized_kept (now : Int) (docs : List ChatDoc) (d : ChatDoc)
    (hmem : d ∈ docs) (hnone : d.createdAt = none) :
    (toMessage now d).createdAt = now ∧
    toMessage now d ∈ docs.map (toMessage now) ∧
    (docs.map (toMessage now)).length = docs.length := by
  refine ⟨?_, List.mem_map_of_mem _ hmem, List.length_map _ _⟩
  simp [toMessage, hnone]

/-- Witness for C8 at a concrete input: a timestampless record is stamped
with the instant 42 and stays in the feed. -/
theorem missing_timestamp_normalized_kept_witness :
    (toMessage 42 (ChatDoc.mk "m1" (UserField.str "a") (some "b") "hi" none)).createdAt = 42 ∧
    toMessage 42 (ChatDoc.mk "m1" (UserField.str "a") (some "b") "hi" none) ∈
      [ChatDoc.mk "m1" (UserField.str "a") (some "b") "hi" none].map (toMessage 42) ∧
    ([ChatDoc.mk "m1" (UserField.str "a") (some "b") "hi" none].map (toMessage 42)).length =
      [ChatDoc.mk "m1" (UserField.str "a") (some "b") "hi" none].length :=
  missing_timestamp_normalized_kept 42 [ChatDoc.mk "m1" (UserField.str "a") (some "b") "hi" none]
    (ChatDoc.mk "m1" (UserField.str "a") (some "b") "hi" none) (by decide) rfl

/-- C3: the view the subscriber produces is sorted newest first: if the
message at position `i` has a strictly greater normalized timestamp than
the one at position `j`, it appears before it (`i < j`), regardless of
the order of the snapshot. -/
theorem view_newest_appears_first (now : Int) (user receiver : String) (docs : List ChatDoc)
    (i j : Nat) (m1 m2 : ChatMsg)
    (hi : (processSnapshot now user receiver docs).get? i = some m1)
    (hj : (processSnapshot now user receiver docs).get? j = some m2)
    (hlt : m2.createdAt < m1.createdAt) :
    i < j := by
  have hsorted : (processSnapshot now user receiver docs).Sorted newestFirst :=
    List.sorted_insertionSort newestFirst _
  obtain ⟨hi2, hgi⟩ := List.get?_eq_some.mp hi
  obtain ⟨hj2, hgj⟩ := List.get?_eq_some.mp hj
  by_contra hnot
  push_neg at hnot
  rcases lt_or_eq_of_le hnot with hji | hji
  · have hrel := List.pairwise_iff_get.mp hsorted ⟨j, hj2⟩ ⟨i, hi2⟩ hji
    rw [hgi, hgj] at hrel
    exact absurd hrel (not_le.mpr hlt)
  · subst hji
    rw [← hgi, ← hgj] at hlt
    exact lt_irrefl _ hlt

/-- Witness for C3 at a concrete input: of two records between `a` and
`b` delivered oldest first, the newer one (timestamp 2) occupies position
0 of the view and the older one (timestamp 1) position 1. -/
theorem view_newest_appears_first_witness :
    (processSnapshot 0 "a" "b"
        [ChatDoc.mk "m1" (UserField.str "a") (some "b") "one" (some 1),
          ChatDoc.mk "m2" (UserField.str "a") (some "b") "two" (some 2)]).get? 0 =
      some (ChatMsg.mk "m2" (UserField.str "a") (some "b") "two" 2) ∧
    (processSnapshot 0 "a" "b"
        [ChatDoc.mk "m1" (UserField.str "a") (some "b") "one" (some 1),
          ChatDoc.mk "m2" (UserField.str "a") (some "b") "two" (some 2)]).get? 1 =
      some (ChatMsg.mk "m1" (UserField.str "a") (some "b") "one" 1) ∧
    (0 : Nat) < 1 :=
  ⟨by decide, by decide,
    view_newest_appears_first 0 "a" "b"
      [ChatDoc.mk "m1" (UserField.str "a") (some "b") "one" (some 1),
        ChatDoc.mk "m2" (UserField.str "a") (some "b") "two" (some 2)] 0 1
      (ChatMsg.mk "m2" (UserField.str "a") (some "b") "two" 2)
      (ChatMsg.mk "m1" (UserField.str "a") (some "b") "one" 1)
      (by decide) (by decide) (by decide)⟩

/-- C4 counterexample: on a snapshot containing a record without a
convertible `createdAt`, two runs of the filter+sort step at different
instants produce different sequences (the fallback stamps the wall-clock
instant of the run), so the step is not a pure function of the snapshot
and the pair alone. -/
theorem snapshot_step_differs_across_instants :
    processSnapshot 0 "a" "b" [ChatDoc.mk "m1" (UserField.str "a") (some "b") "hi" none] ≠
      processSnapshot 1 "a" "b" [ChatDoc.mk "m1" (UserField.str "a") (some "b") "hi" none] := by
  decide

/-- C4 (amended): the filter+sort step is a pure function of the
snapshot, the pair, and the normalization instant; when every record of
the snapshot carries a convertible `createdAt`, it is moreover
independent of the instant, so re-running it on such a snapshot yields
the same ordered sequence. -/
theorem snapshot_step_pure_of_convertible (now1 now2 : Int) (user receiver : String)
    (docs : List ChatDoc) (h : ∀ d ∈ docs, d.createdAt ≠ none) :
    processSnapshot now1 user receiver docs = processSnapshot now2 user receiver docs := by
  unfold processSnapshot
  have hmap : docs.map (toMessage now1) = docs.map (toMessage now2) := by
    apply List.map_congr_left
    intro d hd
    cases hc : d.createdAt with
    | none => exact absurd hc (h d hd)
    | some t => simp [toMessage, hc]
  rw [hmap]

/-- Witness for C4 at a concrete input: on a snapshot whose only record
has a convertible timestamp, runs at instants 3 and 7 agree. -/
theorem snapshot_step_pure_of_convertible_witness :
    (∀ d ∈ [ChatDoc.mk "m1" (UserField.str "a") (some "b") "hi" (some 5)], d.createdAt ≠ none) ∧
    processSnapshot 3 "a" "b" [ChatDoc.mk "m1" (UserField.str "a") (some "b") "hi" (some 5)] =
      processSnapshot 7 "a" "b" [ChatDoc.mk "m1" (UserField.str "a") (some "b") "hi" (some 5)] :=
  ⟨by decide,
    snapshot_step_pure_of_convertible 3 7 "a" "b"
      [ChatDoc.mk "m1" (UserField.str "a") (some "b") "hi" (some 5)] (by decide)⟩

/-- C5: the send button's guard only rejects a falsy composer text, so a
whitespace-only composer text (truthy in JavaScript) passes the guard, is
trimmed to the empty string, and the submission path appends a record
whose text is empty — contradicting both the specification and the
button's own comment that empty messages are prevented. -/
theorem whitespace_text_reaches_store :
    sendPress (some " ") = some "" ∧
    (onSend (some "bob") (some "alice") true 0
        [OutgoingMsg.mk "m1" (some 5) "" (UserField.obj (some "alice"))] [] []).store =
      [ChatDoc.mk "m1" (UserField.obj (some "alice")) (some "bob") "" (some 5)] := by
  constructor
  · decide
  · decide

/-- C9: across every sequence of lifecycle events, at most one
subscription is live; invoking the pending cleanup closes every live
subscription; a dependency change runs the cleanup before the effect
body, so afterwards only the new pair (and only when both identities are
truthy) can be live; unmount leaves nothing live; and a snapshot
delivered for a pair with no live subscription leaves the view
unchanged. -/
theorem single_live_subscription (evs : List ScreenEvent) :
    (runScreen evs).live.length ≤ 1 ∧
    (runCleanup (runScreen evs)).live = [] ∧
    (∀ (receiver user : Option String) (p : Pair),
        p ∈ (stepScreen (runScreen evs) (ScreenEvent.deps receiver user)).live →
          truthyStr receiver = true ∧ truthyStr user = true ∧
            p = Pair.mk (user.getD "") (receiver.getD "")) ∧
    (stepScreen (runScreen evs) ScreenEvent.unmount).live = [] ∧
    (∀ (now : Int) (p : Pair) (docs : List ChatDoc) (view : List ChatMsg),
        p ∉ (runScreen evs).live → deliverSnapshot now (runScreen evs) p docs view = view) := by
  have hw := wellFormed_runScreen evs
  obtain ⟨hcl, _⟩ := wellFormed_runCleanup hw
  refine ⟨?_, hcl, ?_, hcl, ?_⟩
  · unfold wellFormed at hw
    cases hc : (runScreen evs).cleanup with
    | some p => rw [hc] at hw; simp [hw]
    | none => rw [hc] at hw; simp [hw]
  · intro receiver user p hp
    simp only [stepScreen] at hp
    unfold runEffect at hp
    by_cases hg : (!(truthyStr receiver) || !(truthyStr user)) = true
    · rw [if_pos hg] at hp
      rw [hcl] at hp
      exact absurd hp (List.not_mem_nil p)
    · rw [if_neg hg] at hp
      simp only [Bool.or_eq_true, Bool.not_eq_true', not_or, Bool.not_eq_false] at hg
      refine ⟨hg.1, hg.2, ?_⟩
      simp only [hcl, List.nil_append, List.mem_singleton] at hp
      exact hp
  · intro nowi p docs view hp
    simp [deliverSnapshot, hp]

/-- Witness for C9 at a concrete input: after mounting and selecting the
pair (alice, bob), at most one subscription is live and a snapshot for
the unrelated pair (x, y) leaves the empty view unchanged. -/
theorem single_live_subscription_witness :
    (runScreen [ScreenEvent.deps (some "bob") (some "alice")]).live.length ≤ 1 ∧
    deliverSnapshot 0 (runScreen [ScreenEvent.deps (some "bob") (some "alice")])
        (Pair.mk "x" "y") [] [] = [] :=
  ⟨(single_live_subscription [ScreenEvent.deps (some "bob") (some "alice")]).1,
    (single_live_subscription [ScreenEvent.deps (some "bob") (some "alice")]).2.2.2.2 0
      (Pair.mk "x" "y") [] [] (by decide)⟩

/-- C10: the snapshot processing is total over arbitrary record shapes: a
record with no `receiver` field, or whose `user` field is neither an
identity string matching a principal nor an object whose `_id` matches
one, fails the filter and is excluded from the view for any non-empty
principals, and the processed view never exceeds the snapshot's length. -/
theorem malformed_record_excluded (user receiver : String) (hu : user ≠ "") (hr : receiver ≠ "")
    (now : Int) (docs : List ChatDoc) (d : ChatDoc)
    (h : d.receiver = none ∨
        (d.user ≠ UserField.str user ∧ d.user ≠ UserField.str receiver ∧
          d.user ≠ UserField.obj (some user) ∧ d.user ≠ UserField.obj (some receiver))) :
    keepsMessage user receiver (toMessage now d) = false ∧
    toMessage now d ∉ processSnapshot now user receiver docs ∧
    (processSnapshot now user receiver docs).length ≤ docs.length := by
  have hkeep : keepsMessage user receiver (toMessage now d) = false := by
    rcases h with h | ⟨h1, h2, h3, h4⟩
    · simp [keepsMessage, toMessage, h, optEqStr]
    · cases hu2 : d.user with
      | undef => simp [keepsMessage, toMessage, extractMsgUser, jsEqStr, hu2]
      | str s =>
        rw [hu2] at h1 h2
        have hs1 : s ≠ user := fun e => h1 (by rw [e])
        have hs2 : s ≠ receiver := fun e => h2 (by rw [e])
        simp [keepsMessage, toMessage, extractMsgUser, jsEqStr, hu2, hs1, hs2]
      | obj i =>
        cases i with
        | none => simp [keepsMessage, toMessage, extractMsgUser, jsEqStr, hu2]
        | some t =>
          rw [hu2] at h3 h4
          have ht1 : t ≠ user := fun e => h3 (by rw [e])
          have ht2 : t ≠ receiver := fun e => h4 (by rw [e])
          by_cases he : t = ""
          · simp [keepsMessage, toMessage, extractMsgUser, he, jsEqStr, hu2]
          · simp [keepsMessage, toMessage, extractMsgUser, he, jsEqStr, hu2, ht1, ht2]
  refine ⟨hkeep, ?_, ?_⟩
  · intro hmem
    unfold processSnapshot at hmem
    rw [List.mem_insertionSort] at hmem
    have hkept := (List.mem_filter.mp hmem).2
    rw [hkeep] at hkept
    exact Bool.false_ne_true hkept
  · unfold processSnapshot
    rw [List.length_insertionSort]
    calc ((docs.map (toMessage now)).filter (keepsMessage user receiver)).length
        ≤ (docs.map (toMessage now)).length := List.length_filter_le _ _
      _ = docs.length := List.length_map _ _

/-- Witness for C10 at a concrete input: a record with neither a receiver
field nor a usable user object is dropped from the view for the pair
(a, b). -/
theorem malformed_record_excluded_witness :
    keepsMessage "a" "b" (toMessage 0 (ChatDoc.mk "m1" (UserField.obj none) none "hi" none)) = false ∧
    toMessage 0 (ChatDoc.mk "m1" (UserField.obj none) none "hi" none) ∉
      processSnapshot 0 "a" "b" [ChatDoc.mk "m1" (UserField.obj none) none "hi" none] ∧
    (processSnapshot 0 "a" "b" [ChatDoc.mk "m1" (UserField.obj none) none "hi" none]).length ≤
      [ChatDoc.mk "m1" (UserField.obj none) none "hi" none].length :=
  malformed_record_excluded "a" "b" (by decide) (by decide) 0
    [ChatDoc.mk "m1" (UserField.obj none) none "hi" none]
    (ChatDoc.mk "m1" (UserField.obj none) none "hi" none) (Or.inl rfl)

end ChatApp
